import Mathlib

/-!
Verification of the Spark-TTS desktop front-end.

Shallow embedding of `gui.py` (session controller, synthesis worker,
playback display) and `spark_tts_backend.py` (the `run_tts` entry point,
path generation, the level-to-factor table).  Strings are modelled as
`List Char`; the filesystem is an explicit environment.
-/

namespace SparkTTS

/-- Python whitespace: the character set matched by `str.isspace`,
`str.strip` and `\s` in `re` on unicode strings. -/
def pyIsSpace (c : Char) : Bool :=
  c = ' ' || c = '\t' || c = '\n' || c = '\x0d' || c = '\x0b' || c = '\x0c' ||
  c = '\x1c' || c = '\x1d' || c = '\x1e' || c = '\x1f' || c = '\x85' ||
  c = '\xa0' || c = ' ' || c = ' ' || c = ' ' || c = ' ' ||
  c = ' ' || c = ' ' || c = ' ' || c = ' ' || c = ' ' ||
  c = ' ' || c = ' ' || c = ' ' || c = ' ' || c = ' ' ||
  c = ' ' || c = ' ' || c = '　'

/-- gui.py line 338: `input_text.replace('\n', ' ').replace('\t', ' ')`,
applied characterwise. -/
def replNT (c : Char) : Char :=
  if c = '\n' || c = '\t' then ' ' else c

/-- gui.py line 340, `re.sub(r"\s+", " ", cleaned)`: each maximal run of
whitespace is replaced by a single space.  The boolean accumulator records
whether the previous character belonged to a run already replaced. -/
def collapseAux : Bool → List Char → List Char
  | _, [] => []
  | prevSpace, c :: rest =>
    if pyIsSpace c then
      if prevSpace then collapseAux true rest
      else ' ' :: collapseAux true rest
    else c :: collapseAux false rest

def collapseRuns (l : List Char) : List Char := collapseAux false l

/-- Python `str.strip()`: drop leading and trailing whitespace. -/
def pyStrip (l : List Char) : List Char :=
  ((l.dropWhile pyIsSpace).reverse.dropWhile pyIsSpace).reverse

/-- Python `str.rstrip()`: drop trailing whitespace. -/
def pyRstrip (l : List Char) : List Char :=
  (l.reverse.dropWhile pyIsSpace).reverse

/-- gui.py 333-343, `SparkTTS_GUI.clean_text`: empty (falsy) input yields
`""`; otherwise replace newline/tab by a space, collapse whitespace runs,
and strip. -/
def clean_text (s : List Char) : List Char :=
  if s = [] then []
  else pyStrip (collapseRuns (s.map replNT))

/-- `clean_text` on an optional input: Python `None` is falsy, so
`clean_text(None)` takes the `if not input_text` branch. -/
def clean_textOpt : Option (List Char) → List Char
  | none => []
  | some s => clean_text s

/-! Lemmas about the cleaning pipeline. -/

lemma pyIsSpace_space : pyIsSpace ' ' = true := rfl

lemma collapseAux_true_allSpace (l : List Char) (h : ∀ c ∈ l, c = ' ') :
    collapseAux true l = [] := by
  induction l with
  | nil => rfl
  | cons c rest ih =>
    have hc : c = ' ' := h c (List.mem_cons_self _ _)
    subst hc
    simp only [collapseAux, pyIsSpace_space, if_pos]
    exact ih fun d hd => h d (List.mem_cons_of_mem _ hd)

lemma collapseAux_false_allSpace (l : List Char) (hne : l ≠ [])
    (h : ∀ c ∈ l, c = ' ') : collapseAux false l = [' '] := by
  cases l with
  | nil => exact absurd rfl hne
  | cons c rest =>
    have hc : c = ' ' := h c (List.mem_cons_self _ _)
    subst hc
    simp only [collapseAux, pyIsSpace_space, if_pos, if_neg]
    rw [collapseAux_true_allSpace rest fun d hd => h d (List.mem_cons_of_mem _ hd)]
    rfl

/-- Every whitespace character in the output of the collapse step is a
plain space. -/
def onlyPlainSpace (l : List Char) : Prop :=
  ∀ c ∈ l, pyIsSpace c = true → c = ' '

/-- No two adjacent characters of `l` are both whitespace. -/
def noAdjSpace : List Char → Bool
  | [] => true
  | [_] => true
  | c :: d :: rest => (!(pyIsSpace c && pyIsSpace d)) && noAdjSpace (d :: rest)

/-- The head of `l`, when present, is not whitespace. -/
def headNonSpace (l : List Char) : Prop :=
  ∀ c, l.head? = some c → pyIsSpace c = false

lemma collapseAux_onlyPlain (b : Bool) (l : List Char) :
    onlyPlainSpace (collapseAux b l) := by
  induction l generalizing b with
  | nil => intro c hc; simp [collapseAux] at hc
  | cons c rest ih =>
    intro d hd hsp
    by_cases hc : pyIsSpace c = true
    · simp only [collapseAux, hc, if_pos] at hd
      cases b with
      | true => exact ih true d hd hsp
      | false =>
        rcases List.mem_cons.mp hd with h | h
        · exact h
        · exact ih true d h hsp
    · simp only [collapseAux, hc, if_neg, Bool.false_eq_true, ite_false] at hd
      rcases List.mem_cons.mp hd with h | h
      · subst h; exact absurd hsp hc
      · exact ih false d h hsp

lemma collapseAux_true_head (l : List Char) : headNonSpace (collapseAux true l) := by
  induction l with
  | nil => intro c hc; simp [collapseAux] at hc
  | cons c rest ih =>
    intro d hd
    by_cases hc : pyIsSpace c = true
    · simp only [collapseAux, hc, if_pos] at hd
      exact ih d hd
    · simp only [collapseAux, hc, Bool.false_eq_true, ite_false, List.head?_cons,
        Option.some.injEq] at hd
      subst hd
      exact Bool.not_eq_true _ ▸ hc

lemma noAdjSpace_cons_of_nonspace {c : Char} {l : List Char}
    (hc : pyIsSpace c = false) (hl : noAdjSpace l = true) :
    noAdjSpace (c :: l) = true := by
  cases l with
  | nil => rfl
  | cons d rest =>
    simp only [noAdjSpace, Bool.and_eq_true, Bool.not_eq_true', Bool.and_eq_false_iff]
    exact ⟨Or.inl hc, hl⟩

lemma noAdjSpace_cons_of_head {c : Char} {l : List Char}
    (hh : headNonSpace l) (hl : noAdjSpace l = true) :
    noAdjSpace (c :: l) = true := by
  cases l with
  | nil => rfl
  | cons d rest =>
    simp only [noAdjSpace, Bool.and_eq_true, Bool.not_eq_true', Bool.and_eq_false_iff]
    exact ⟨Or.inr (hh d rfl), hl⟩

lemma collapseAux_noAdj (b : Bool) (l : List Char) :
    noAdjSpace (collapseAux b l) = true := by
  induction l generalizing b with
  | nil => rfl
  | cons c rest ih =>
    by_cases hc : pyIsSpace c = true
    · cases b with
      | true => simpa only [collapseAux, hc, if_pos] using ih true
      | false =>
        simp only [collapseAux, hc, if_pos]
        exact noAdjSpace_cons_of_head (collapseAux_true_head rest) (ih true)
    · have hc' : pyIsSpace c = false := Bool.not_eq_true _ ▸ hc
      simp only [collapseAux, hc, Bool.false_eq_true, ite_false]
      exact noAdjSpace_cons_of_nonspace hc' (ih false)

lemma noAdjSpace_tail {c : Char} {l : List Char}
    (h : noAdjSpace (c :: l) = true) : noAdjSpace l = true := by
  cases l with
  | nil => rfl
  | cons d rest =>
    simp only [noAdjSpace, Bool.and_eq_true] at h
    exact h.2

lemma noAdjSpace_dropWhile (p : Char → Bool) (l : List Char)
    (h : noAdjSpace l = true) : noAdjSpace (l.dropWhile p) = true := by
  induction l with
  | nil => exact h
  | cons c rest ih =>
    rw [List.dropWhile_cons]
    by_cases hc : p c = true
    · simp only [hc, if_pos]
      exact ih (noAdjSpace_tail h)
    · simp only [hc, Bool.false_eq_true, ite_false]
      exact h

/-- `noAdjSpace` as a chain condition (used for its behaviour under
reversal). -/
lemma noAdjSpace_iff_chain (l : List Char) :
    noAdjSpace l = true ↔
      l.Chain' (fun a b => pyIsSpace a = false ∨ pyIsSpace b = false) := by
  induction l with
  | nil => simp [noAdjSpace]
  | cons c rest ih =>
    cases rest with
    | nil => simp [noAdjSpace]
    | cons d t =>
      rw [List.chain'_cons, ← ih]
      simp only [noAdjSpace, Bool.and_eq_true, Bool.not_eq_true', Bool.and_eq_false_iff,
        Bool.not_eq_true]

lemma noAdjSpace_reverse (l : List Char) (h : noAdjSpace l = true) :
    noAdjSpace l.reverse = true := by
  rw [noAdjSpace_iff_chain] at h ⊢
  rw [List.chain'_reverse]
  exact h.imp fun a b hab => hab.symm

lemma onlyPlain_dropWhile (p : Char → Bool) (l : List Char)
    (h : onlyPlainSpace l) : onlyPlainSpace (l.dropWhile p) :=
  fun c hc => h c ((List.dropWhile_sublist p).mem hc)

lemma onlyPlain_reverse (l : List Char) (h : onlyPlainSpace l) :
    onlyPlainSpace l.reverse :=
  fun c hc => h c (List.mem_reverse.mp hc)

lemma head_dropWhile_nonspace (l : List Char) :
    headNonSpace (l.dropWhile pyIsSpace) := by
  induction l with
  | nil => intro c hc; simp at hc
  | cons c rest ih =>
    intro d hd
    rw [List.dropWhile_cons] at hd
    by_cases hc : pyIsSpace c = true
    · simp only [hc, if_pos] at hd
      exact ih d hd
    · simp only [hc, Bool.false_eq_true, ite_false, List.head?_cons,
        Option.some.injEq] at hd
      subst hd
      exact Bool.not_eq_true _ ▸ hc

/-- `dropWhile` yields a suffix. -/
lemma dropWhile_is_suffix (p : Char → Bool) (l : List Char) :
    ∃ t, l = t ++ l.dropWhile p := by
  induction l with
  | nil => exact ⟨[], rfl⟩
  | cons c rest ih =>
    rw [List.dropWhile_cons]
    by_cases hc : p c = true
    · obtain ⟨t, ht⟩ := ih
      exact ⟨c :: t, by simp [hc, ← ht]⟩
    · exact ⟨[], by simp [hc]⟩

lemma pyStrip_onlyPlain (l : List Char) (h : onlyPlainSpace l) :
    onlyPlainSpace (pyStrip l) := by
  unfold pyStrip
  exact onlyPlain_reverse _ (onlyPlain_dropWhile _ _ (onlyPlain_reverse _
    (onlyPlain_dropWhile _ _ h)))

lemma pyStrip_noAdj (l : List Char) (h : noAdjSpace l = true) :
    noAdjSpace (pyStrip l) = true := by
  unfold pyStrip
  exact noAdjSpace_reverse _ (noAdjSpace_dropWhile _ _ (noAdjSpace_reverse _
    (noAdjSpace_dropWhile _ _ h)))

lemma pyStrip_head (l : List Char) : headNonSpace (pyStrip l) := by
  intro c hc
  unfold pyStrip at hc
  obtain ⟨t, ht⟩ := dropWhile_is_suffix pyIsSpace (l.dropWhile pyIsSpace).reverse
  -- the stripped list begins the list `l.dropWhile pyIsSpace`
  have hAC : l.dropWhile pyIsSpace
      = ((l.dropWhile pyIsSpace).reverse.dropWhile pyIsSpace).reverse ++ t.reverse := by
    have h2 := congrArg List.reverse ht
    simpa [List.reverse_append] using h2
  have hhead : (l.dropWhile pyIsSpace).head? = some c := by
    cases hrev : ((l.dropWhile pyIsSpace).reverse.dropWhile pyIsSpace).reverse with
    | nil => rw [hrev] at hc; simp at hc
    | cons d r =>
      rw [hrev] at hc
      simp only [List.head?_cons, Option.some.injEq] at hc
      rw [hAC, hrev, List.cons_append, List.head?_cons, hc]
  exact head_dropWhile_nonspace l c hhead

lemma pyStrip_last (l : List Char) :
    ∀ c, (pyStrip l).getLast? = some c → pyIsSpace c = false := by
  intro c hc
  unfold pyStrip at hc
  rw [List.getLast?_reverse] at hc
  exact head_dropWhile_nonspace _ c hc

/-! Fixpoint lemmas: on an already-clean list each pipeline stage is the
identity. -/

lemma map_replNT_id (l : List Char) (h : onlyPlainSpace l) :
    l.map replNT = l := by
  induction l with
  | nil => rfl
  | cons c rest ih =>
    have hc : replNT c = c := by
      unfold replNT
      by_cases hnt : c = '\n' || c = '\t'
      · have : pyIsSpace c = true := by
          rcases Bool.or_eq_true_iff.mp hnt with h1 | h1 <;>
            simp only [decide_eq_true_eq] at h1 <;> subst h1 <;> rfl
        have := h c (List.mem_cons_self _ _) this
        subst this
        simp at hnt
      · simp [hnt]
    rw [List.map_cons, hc, ih fun d hd hs => h d (List.mem_cons_of_mem _ hd) hs]

lemma collapseAux_fix (l : List Char) (hp : onlyPlainSpace l)
    (hn : noAdjSpace l = true) :
    collapseAux false l = l ∧ (headNonSpace l → collapseAux true l = l) := by
  induction l with
  | nil => exact ⟨rfl, fun _ => rfl⟩
  | cons c rest ih =>
    have hp' : onlyPlainSpace rest := fun d hd hs => hp d (List.mem_cons_of_mem _ hd) hs
    obtain ⟨ihf, iht⟩ := ih hp' (noAdjSpace_tail hn)
    by_cases hc : pyIsSpace c = true
    · have hce : c = ' ' := hp c (List.mem_cons_self _ _) hc
      have hrest : headNonSpace rest := by
        intro d hd
        cases rest with
        | nil => simp at hd
        | cons e r =>
          simp only [List.head?_cons, Option.some.injEq] at hd
          subst hd
          simp only [noAdjSpace, Bool.and_eq_true, Bool.not_eq_true',
            Bool.and_eq_false_iff] at hn
          rcases hn.1 with h1 | h1
          · exact absurd h1 (by simp [hc])
          · exact h1
      constructor
      · simp only [collapseAux, hc, if_pos, Bool.false_eq_true, ite_false]
        rw [iht hrest, hce]
      · intro hh
        exact absurd (hh c rfl) (by simp [hc])
    · constructor
      · simp only [collapseAux, hc, Bool.false_eq_true, ite_false]
        rw [ihf]
      · intro _
        simp only [collapseAux, hc, Bool.false_eq_true, ite_false]
        rw [ihf]

lemma dropWhile_id_of_head (p : Char → Bool) (l : List Char)
    (h : ∀ c, l.head? = some c → p c = false) : l.dropWhile p = l := by
  cases l with
  | nil => rfl
  | cons c rest =>
    rw [List.dropWhile_cons, h c rfl]
    simp

lemma pyStrip_fix (l : List Char) (hh : headNonSpace l)
    (hl : ∀ c, l.getLast? = some c → pyIsSpace c = false) : pyStrip l = l := by
  unfold pyStrip
  rw [dropWhile_id_of_head _ _ hh]
  rw [dropWhile_id_of_head _ l.reverse (fun c hc => hl c (by rwa [List.head?_reverse] at hc))]
  exact List.reverse_reverse l

/-- The output of `clean_text` only contains plain spaces as whitespace,
never two adjacent, and none at either end. -/
lemma clean_text_invariants (s : List Char) :
    onlyPlainSpace (clean_text s) ∧ noAdjSpace (clean_text s) = true ∧
      headNonSpace (clean_text s) ∧
      (∀ c, (clean_text s).getLast? = some c → pyIsSpace c = false) := by
  unfold clean_text
  by_cases hs : s = []
  · simp only [hs, if_pos]
    exact ⟨fun c hc => by simp at hc, rfl, fun c hc => by simp at hc,
      fun c hc => by simp at hc⟩
  · simp only [hs, if_neg, Bool.false_eq_true, ite_false]
    exact ⟨pyStrip_onlyPlain _ (collapseAux_onlyPlain false _),
      pyStrip_noAdj _ (collapseAux_noAdj false _), pyStrip_head _, pyStrip_last _⟩

/-- `clean_text` is the identity on its own output. -/
lemma clean_text_fix (l : List Char) (hp : onlyPlainSpace l)
    (hn : noAdjSpace l = true) (hh : headNonSpace l)
    (hg : ∀ c, l.getLast? = some c → pyIsSpace c = false) :
    clean_text l = l := by
  unfold clean_text
  by_cases hl : l = []
  · simp [hl]
  · simp only [hl, Bool.false_eq_true, ite_false]
    unfold collapseRuns
    rw [map_replNT_id l hp, (collapseAux_fix l hp hn).1, pyStrip_fix l hh hg]

/-- C6: `clean_text` replaces each newline and tab character with a space,
then collapses every run of whitespace into a single space, then trims
leading and trailing whitespace; empty or null input yields the empty
string, a string containing only tabs/newlines/spaces yields the empty
string, and cleaning `"a\n\tb   c"` gives `"a b c"`. -/
theorem C6_clean_text_contract :
    (∀ s : List Char, clean_text s = pyStrip (collapseRuns (s.map replNT)))
    ∧ clean_text [] = []
    ∧ clean_textOpt none = []
    ∧ (∀ s : List Char, (∀ c ∈ s, c = '\t' ∨ c = '\n' ∨ c = ' ') →
        clean_text s = [])
    ∧ clean_text "a\n\tb   c".data = "a b c".data := by
  refine ⟨?_, rfl, rfl, ?_, by decide⟩
  · intro s
    unfold clean_text
    by_cases hs : s = []
    · subst hs; rfl
    · simp [hs]
  · intro s hs
    unfold clean_text
    by_cases h0 : s = []
    · simp [h0]
    · simp only [h0, Bool.false_eq_true, ite_false]
      unfold collapseRuns
      have hmap : ∀ c ∈ s.map replNT, c = ' ' := by
        intro c hc
        obtain ⟨d, hd, hdc⟩ := List.mem_map.mp hc
        rcases hs d hd with h | h | h <;> subst h <;> subst hdc <;> rfl
      rw [collapseAux_false_allSpace _ (by simpa [List.map_eq_nil_iff] using h0) hmap]
      decide

/-- C6 witness: a concrete string of only tabs, newlines and spaces cleans
to the empty string. -/
theorem C6_clean_text_contract_witness :
    clean_text ['\t', '\n', ' ', '\t'] = [] :=
  C6_clean_text_contract.2.2.2.1 ['\t', '\n', ' ', '\t'] (by decide)

/-- C7: `clean_text` is idempotent. -/
theorem C7_clean_text_idempotent :
    ∀ s : List Char, clean_text (clean_text s) = clean_text s := by
  intro s
  obtain ⟨hp, hn, hh, hg⟩ := clean_text_invariants s
  exact clean_text_fix _ hp hn hh hg

/-! ## spark_tts_backend.py -/

/-- spark_tts_backend.py 221-227, the fallback `UI_LEVELS_MAP` dictionary
(the spec's default level-to-factor table).  Factors are exact rationals,
mirroring the decimal literals of the source. -/
def UI_LEVELS_MAP (l : Int) : Option ℚ :=
  if l = 1 then some 0.8
  else if l = 2 then some 0.9
  else if l = 3 then some 1.0
  else if l = 4 then some 1.1
  else if l = 5 then some 1.2
  else none

/-- gui.py 423-424: `UI_LEVELS_MAP.get(level, 1.0)`. -/
def levelFactor (l : Int) : ℚ :=
  (UI_LEVELS_MAP l).getD 1.0

/-- Python `str.isalnum` restricted to its ASCII fragment (the source's
predicate also accepts further unicode letters and digits; the claims at
issue only exercise ASCII input). -/
def pyIsAlnum (c : Char) : Bool := c.isAlphanum

/-- spark_tts_backend.py 132-133: keep only alphanumeric, space and
underscore characters of the first 15 characters of `text`, strip trailing
whitespace (`.rstrip()`), and fall back to `"audio"` when nothing is
left. -/
def safeTextPrefix (text : List Char) : List Char :=
  let filtered := (text.take 15).filter fun c => pyIsAlnum c || c = ' ' || c = '_'
  let r := pyRstrip filtered
  if r = [] then "audio".data else r

/-- spark_tts_backend.py 134: `os.path.join(save_dir, f"{timestamp}_{safeTextPrefix}.wav")`
(posix join of a relative file name). -/
def save_path_of (save_dir timestamp text : List Char) : List Char :=
  save_dir ++ "/".data ++ timestamp ++ "_".data ++ safeTextPrefix text ++ ".wav".data

/-- The claim's wording of the sanitized prefix: keep only the
alphanumeric, space and underscore characters from the first 15 characters
of the input text, and use the literal token `"audio"` when that filtering
yields nothing.  (No trailing-whitespace strip.) -/
def claimedPrefix (text : List Char) : List Char :=
  let filtered := (text.take 15).filter fun c => pyIsAlnum c || c = ' ' || c = '_'
  if filtered = [] then "audio".data else filtered

/-- The amended wording: as `claimedPrefix`, but trailing whitespace is
removed from the filtered characters before the emptiness fallback. -/
def amendedPrefix (text : List Char) : List Char :=
  let kept := pyRstrip
    ((text.take 15).filter fun c => pyIsAlnum c || c = ' ' || c = '_')
  if kept = [] then "audio".data else kept

/-- The filesystem and directory environment seen by the code. -/
structure Env where
  pathExists : List Char → Bool
  isDir : List Char → Bool

/-- What `model.inference` does when reached (the model is an opaque
external collaborator). -/
inductive InferBehavior
  | returnsWav   -- inference returns audio; `sf.write` then persists it
  | returnsNone  -- inference returns None (backend logs and returns None)
  | raises       -- inference raises; caught, backend returns None
deriving DecidableEq

/-- Observable side effects of `run_tts`. -/
inductive TtsEffect
  | madeDir (d : List Char)
  | inference
  | wroteFile (p : List Char)
deriving DecidableEq

/-- spark_tts_backend.py 81-209, `run_tts`.  The model argument is opaque
(`Option Unit`: loaded or missing); `timestamp` stands for
`datetime.now().strftime("%Y%m%d_%H%M%S")`; raising paths are returned as
`Except.error`.  The result carries the returned value and the ordered
list of effects performed. -/
def run_tts (model : Option Unit) (text : List Char)
    (prompt_speech_path : Option (List Char)) (env : Env)
    (save_dir timestamp : List Char) (infer : InferBehavior)
    (mkdirOk : Bool) :
    Except (List Char) (Option (List Char)) × List TtsEffect :=
  -- `if not text: return None`
  if text = [] then (.ok none, [])
  else match model with
  -- `if not model: return None`
  | none => (.ok none, [])
  | some _ =>
    -- `if prompt_speech_path:` (truthy) `... raise FileNotFoundError`
    let refMissing :=
      match prompt_speech_path with
      | some pp => pp ≠ [] && !env.pathExists pp
      | none => false
    if refMissing then
      (.error "参考音频文件不存在".data, [])
    else if !mkdirOk then
      -- `os.makedirs` raised OSError: logged and re-raised
      (.error "创建保存目录失败".data, [])
    else
      let path := save_path_of save_dir timestamp text
      match infer with
      | .returnsWav =>
        (.ok (some path), [.madeDir save_dir, .inference, .wroteFile path])
      | .returnsNone =>
        (.ok none, [.madeDir save_dir, .inference])
      | .raises =>
        (.ok none, [.madeDir save_dir, .inference])

/-- C10: with empty text or a missing model, `run_tts` returns `None`
immediately: no inference, no results-directory creation, no file write. -/
theorem C10_run_tts_early_return (model : Option Unit) (text : List Char)
    (pp : Option (List Char)) (env : Env) (d ts : List Char)
    (infer : InferBehavior) (mk : Bool) :
    (text = [] → run_tts model text pp env d ts infer mk = (.ok none, []))
    ∧ (model = none → run_tts model text pp env d ts infer mk = (.ok none, [])) := by
  constructor
  · intro h
    simp [run_tts, h]
  · intro h
    subst h
    unfold run_tts
    by_cases ht : text = [] <;> simp [ht]

/-- C10 witness: both early-return branches at concrete inputs. -/
theorem C10_run_tts_early_return_witness :
    run_tts (some ()) [] none ⟨fun _ => true, fun _ => true⟩ "tts_results".data
        "ts".data .returnsWav true = (.ok none, [])
    ∧ run_tts none "hi".data none ⟨fun _ => true, fun _ => true⟩
        "tts_results".data "ts".data .returnsWav true = (.ok none, []) :=
  ⟨(C10_run_tts_early_return (some ()) [] none ⟨fun _ => true, fun _ => true⟩
      "tts_results".data "ts".data .returnsWav true).1 rfl,
   (C10_run_tts_early_return none "hi".data none ⟨fun _ => true, fun _ => true⟩
      "tts_results".data "ts".data .returnsWav true).2 rfl⟩

/-- C8 counterexample: for the input text `"a "` the code strips the
trailing space from the sanitized prefix (`.rstrip()`), so the generated
file name is `..._a.wav`, not the `..._a .wav` the claim's description
("keeps only the alphanumeric, space, and underscore characters from the
first 15 characters") produces. -/
theorem C8_filename_counterexample :
    safeTextPrefix "a ".data ≠ claimedPrefix "a ".data
    ∧ safeTextPrefix "a ".data = "a".data
    ∧ claimedPrefix "a ".data = "a ".data
    ∧ save_path_of "tts_results".data "20260101_000000".data "a ".data
        = "tts_results/20260101_000000_a.wav".data := by
  refine ⟨by decide, by decide, by decide, by decide⟩

/-- C8 amended: every file written by `run_tts` is written at
`{save_dir}/{timestamp}_{prefix}.wav`, where the prefix keeps only the
alphanumeric/space/underscore characters of the first 15 characters of the
text, **then strips trailing whitespace**, and is the literal `"audio"`
when that yields the empty string. -/
theorem C8_filename_amended (model : Option Unit) (text : List Char)
    (pp : Option (List Char)) (env : Env) (d ts : List Char)
    (infer : InferBehavior) (mk : Bool) (p : List Char)
    (hw : TtsEffect.wroteFile p ∈ (run_tts model text pp env d ts infer mk).2) :
    p = d ++ "/".data ++ ts ++ "_".data ++ amendedPrefix text ++ ".wav".data := by
  unfold run_tts at hw
  split at hw
  · simp at hw
  · cases model with
    | none => simp at hw
    | some u =>
      simp only at hw
      split at hw
      · simp at hw
      · split at hw
        · simp at hw
        · split at hw <;> simp at hw
          subst hw
          rfl

/-- C8 amended witness: a concrete successful run writes exactly the
amended path. -/
theorem C8_filename_amended_witness :
    "tts_results/20260101_000000_a.wav".data
      = "tts_results".data ++ "/".data ++ "20260101_000000".data ++ "_".data
        ++ amendedPrefix "a ".data ++ ".wav".data :=
  C8_filename_amended (some ()) "a ".data none ⟨fun _ => true, fun _ => true⟩
    "tts_results".data "20260101_000000".data .returnsWav true
    "tts_results/20260101_000000_a.wav".data (by decide)

/-! ## gui.py: the synthesis worker thread -/

/-- Qt signals emitted by `TTSWorker` (gui.py 63-65). -/
inductive WorkerEvent
  | progress (msg : List Char)
  | finished (path : List Char)
  | error (msg : List Char)
deriving DecidableEq

def initProgressMsg : List Char := "正在初始化推理...".data
def cancelEarlyMsg : List Char := "任务在开始前被取消。".data
def cancelMidMsg : List Char := "任务在处理过程中被取消。".data
def ttsFailedMsg : List Char :=
  "TTS 推理失败。请查看控制台日志获取详细错误信息。".data

/-- What the `run_tts` call inside the worker produced. -/
inductive InferOutcome
  | ok (p : List Char)          -- returned a path (possibly the empty string)
  | noResult                    -- returned None
  | raisesFNF (m : List Char)   -- raised FileNotFoundError
  | raisesOther (m : List Char) -- raised some other exception
deriving DecidableEq

/-- Result of one execution of `TTSWorker.run`. -/
structure RunResult where
  events : List WorkerEvent          -- signals emitted, in order
  fs : List (List Char)              -- files existing afterwards
  warnings : List (List Char)        -- `logging.warning` messages
deriving DecidableEq

def deleteFailMsg (p : List Char) : List Char :=
  "无法删除取消任务的文件: ".data ++ p

/-- gui.py 73-107, `TTSWorker.run`.  `c1` and `c2` are the values of the
cooperative `_is_cancelled` flag at its two check points (immediately
before the inference call and immediately after it returns; the flag is
monotone false→true, so `c1 = true` forces `c2 = true` in a real
execution).  `fs` is the set of files on disk after `run_tts` returned and
`removeOk` tells whether `os.remove` succeeds. -/
def TTSWorker_run (c1 c2 : Bool) (infer : InferOutcome)
    (fs : List (List Char)) (removeOk : Bool) : RunResult :=
  let ev0 : List WorkerEvent := [.progress initProgressMsg]
  if c1 then ⟨ev0 ++ [.error cancelEarlyMsg], fs, []⟩
  else
    match infer with
    | .raisesFNF m => ⟨ev0 ++ [.error ("文件错误: ".data ++ m)], fs, []⟩
    | .raisesOther m =>
      ⟨ev0 ++ [.error ("TTS 执行时发生意外错误: ".data ++ m)], fs, []⟩
    | .ok p =>
      if c2 then
        -- `if result_path and os.path.exists(result_path): os.remove(...)`
        if !p.isEmpty && fs.contains p then
          if removeOk then ⟨ev0 ++ [.error cancelMidMsg], fs.filter (· ≠ p), []⟩
          else ⟨ev0 ++ [.error cancelMidMsg], fs, [deleteFailMsg p]⟩
        else ⟨ev0 ++ [.error cancelMidMsg], fs, []⟩
      else
        -- `if result_path: finished.emit(...) else error.emit(...)`
        if !p.isEmpty then ⟨ev0 ++ [.finished p], fs, []⟩
        else ⟨ev0 ++ [.error ttsFailedMsg], fs, []⟩
    | .noResult =>
      if c2 then ⟨ev0 ++ [.error cancelMidMsg], fs, []⟩
      else ⟨ev0 ++ [.error ttsFailedMsg], fs, []⟩

/-- C2: when the cancellation flag is set only after the inference call
already produced a successful artifact, the worker emits the cancellation
message on its error signal (the spec's `cancelled` terminal event) and
never the success signal; the artifact is removed when removal succeeds,
and a removal failure is only logged as a warning, never emitted to the
caller. -/
theorem C2_cancel_after_success (p : List Char) (fs : List (List Char))
    (removeOk : Bool) (hp : p ≠ []) (hfs : p ∈ fs) :
    (TTSWorker_run false true (.ok p) fs removeOk).events
        = [.progress initProgressMsg, .error cancelMidMsg]
    ∧ (∀ q, WorkerEvent.finished q ∉
        (TTSWorker_run false true (.ok p) fs removeOk).events)
    ∧ (removeOk = true → p ∉ (TTSWorker_run false true (.ok p) fs removeOk).fs
        ∧ (TTSWorker_run false true (.ok p) fs removeOk).warnings = [])
    ∧ (removeOk = false → (TTSWorker_run false true (.ok p) fs removeOk).fs = fs
        ∧ (TTSWorker_run false true (.ok p) fs removeOk).warnings
            = [deleteFailMsg p]) := by
  have h1 : p.isEmpty = false := by
    cases p with
    | nil => exact absurd rfl hp
    | cons c r => rfl
  have h2 : fs.contains p = true := List.elem_eq_true_of_mem hfs
  cases removeOk with
  | true =>
    refine ⟨?_, ?_, fun _ => ⟨?_, ?_⟩, fun h => by simp at h⟩ <;>
      simp [TTSWorker_run, h1, h2, hfs, List.mem_filter]
  | false =>
    refine ⟨?_, ?_, fun h => by simp at h, fun _ => ⟨?_, ?_⟩⟩ <;>
      simp [TTSWorker_run, h1, h2, hfs]

/-- C2 witness: a concrete cancelled-after-success run whose artifact
removal fails is only logged. -/
theorem C2_cancel_after_success_witness :
    (TTSWorker_run false true (.ok "f.wav".data) ["f.wav".data] false).warnings
      = [deleteFailMsg "f.wav".data] :=
  ((C2_cancel_after_success "f.wav".data ["f.wav".data] false (by decide)
      (by decide)).2.2.2 rfl).2

/-! ## gui.py: the session controller and playback display -/

inductive Gender
  | male
  | female
deriving DecidableEq

/-- The argument dictionary built by the two submission handlers
(gui.py 388-395 and 427-434). -/
structure TTSArgs where
  text : List Char
  prompt_speech_path : Option (List Char)
  prompt_text : Option (List Char)
  gender : Option Gender
  pitch : Option ℚ
  speed : Option ℚ
deriving DecidableEq

/-- A `TTSWorker` as the controller sees it. -/
structure Worker where
  args : TTSArgs
  running : Bool     -- `isRunning()`
  cancelled : Bool   -- `_is_cancelled`
deriving DecidableEq

/-- `QMediaPlayer.PlaybackState`. -/
inductive PlaybackState
  | stopped
  | playing
  | paused
deriving DecidableEq

/-- `QMediaPlayer.MediaStatus`. -/
inductive MediaStatus
  | noMedia
  | loading
  | loaded
  | stalled
  | buffering
  | buffered
  | endOfMedia
  | invalid
deriving DecidableEq

/-- The media player (source and playback state). -/
structure Player where
  source : Option (List Char)
  state : PlaybackState
deriving DecidableEq

/-- The mutable state of `SparkTTS_GUI` relevant to the session controller
and the playback display. -/
structure GuiState where
  last_generated_audio_path : Option (List Char)
  last_generated_filename : Option (List Char)
  tts_thread : Option Worker
  progress_dialog : Bool
  output_status_label : List Char
  play_button_enabled : Bool
  stop_button_enabled : Bool
  open_folder_button_enabled : Bool
  generate_buttons_enabled : Bool   -- both generate buttons, `set_ui_busy`
  prompt_audio_path_edit : List Char
  player : Player
  status_bar : List Char
deriving DecidableEq

/-- gui.py 116-184, the state after `__init__`. -/
def initState : GuiState where
  last_generated_audio_path := none
  last_generated_filename := none
  tts_thread := none
  progress_dialog := false
  output_status_label := "点击生成按钮开始合成。".data
  play_button_enabled := false
  stop_button_enabled := false
  open_folder_button_enabled := false
  generate_buttons_enabled := true
  prompt_audio_path_edit := []
  player := ⟨none, .stopped⟩
  status_bar := "模型加载成功，准备就绪。".data

/-- `if self.tts_thread and self.tts_thread.isRunning()`. -/
def threadRunning (st : GuiState) : Bool :=
  match st.tts_thread with
  | some w => w.running
  | none => false

inductive StartOutcome
  | busy      -- rejected: `QMessageBox.warning(..., "正在处理", ...)`
  | started
deriving DecidableEq

/-- gui.py 439-472, `SparkTTS_GUI.start_tts_thread`. -/
def start_tts_thread (st : GuiState) (args : TTSArgs) :
    GuiState × StartOutcome :=
  if threadRunning st then (st, .busy)
  else
    ({ st with
        generate_buttons_enabled := false          -- set_ui_busy(True)
        last_generated_filename := none
        output_status_label := "⏳ 正在初始化...".data
        play_button_enabled := false
        stop_button_enabled := false
        open_folder_button_enabled := false
        status_bar := "正在启动 TTS 任务...".data
        progress_dialog := true
        tts_thread := some ⟨args, true, false⟩ }, .started)

inductive CloneOutcome
  | emptyInput        -- "请输入要合成的文本。"
  | missingReference  -- "请选择一个参考音频文件进行声音克隆。"
  | referenceNotFound -- "选择的参考音频文件不存在或无法访问"
  | submitted (o : StartOutcome)
deriving DecidableEq

/-- gui.py 362-397, `SparkTTS_GUI.run_voice_clone`: validation, argument
construction, submission. -/
def run_voice_clone (env : Env) (st : GuiState)
    (rawTextInput rawPromptTextInput : List Char) :
    GuiState × CloneOutcome :=
  let raw_text := pyStrip rawTextInput
  let raw_prompt_text := pyStrip rawPromptTextInput
  let prompt_speech := pyStrip st.prompt_audio_path_edit
  let text := clean_text raw_text
  let prompt_text := clean_text raw_prompt_text
  if text = [] then (st, .emptyInput)
  else if prompt_speech = [] then (st, .missingReference)
  else if !env.pathExists prompt_speech then
    ({ st with prompt_audio_path_edit := [] }, .referenceNotFound)
  else
    let args : TTSArgs :=
      { text := text
        prompt_speech_path := some prompt_speech
        prompt_text := if prompt_text.length ≥ 2 then some prompt_text else none
        gender := none
        pitch := none
        speed := none }
    let r := start_tts_thread st args
    (r.1, .submitted r.2)

inductive CreateOutcome
  | emptyInput        -- "请输入要合成的文本。"
  | emptyAfterClean   -- "清理后的文本为空，请输入有效内容。"
  | submitted (o : StartOutcome)
deriving DecidableEq

/-- gui.py 399-436, `SparkTTS_GUI.run_voice_creation`. -/
def run_voice_creation (st : GuiState) (rawTextInput : List Char)
    (gender : Gender) (pitch_level speed_level : Int) :
    GuiState × CreateOutcome :=
  let raw_text := pyStrip rawTextInput
  if raw_text = [] then (st, .emptyInput)
  else
    let text := clean_text raw_text
    if text = [] then (st, .emptyAfterClean)
    else
      let args : TTSArgs :=
        { text := text
          prompt_speech_path := none
          prompt_text := none
          gender := some gender
          pitch := some (levelFactor pitch_level)
          speed := some (levelFactor speed_level) }
      let r := start_tts_thread st args
      (r.1, .submitted r.2)

/-- `Path(p).name`: the final path component (posix separators). -/
def basename (p : List Char) : List Char :=
  (p.reverse.takeWhile (· ≠ '/')).reverse

/-- gui.py 481-500, `SparkTTS_GUI.on_tts_finished`. -/
def on_tts_finished (st : GuiState) (result_path : List Char) : GuiState :=
  { st with
      last_generated_audio_path := some result_path
      last_generated_filename := some (basename result_path)
      progress_dialog := false
      output_status_label := "✅ 生成成功: ".data ++ basename result_path
      play_button_enabled := true
      stop_button_enabled := false
      open_folder_button_enabled := true
      status_bar := "生成成功: ".data ++ basename result_path
      generate_buttons_enabled := true      -- set_ui_busy(False)
      tts_thread := none }

/-- gui.py 502-523, `SparkTTS_GUI.on_tts_error`. -/
def on_tts_error (env : Env) (st : GuiState) (error_message : List Char) :
    GuiState :=
  { st with
      progress_dialog := false
      last_generated_filename := none
      output_status_label := "❌ 生成失败。".data
      status_bar := "错误: ".data ++ error_message
      play_button_enabled := false
      stop_button_enabled := false
      open_folder_button_enabled := env.isDir "tts_results".data
      generate_buttons_enabled := true      -- set_ui_busy(False)
      tts_thread := none }

inductive PlayOutcome
  | playing
  | noResult   -- "未找到有效的音频文件。"
deriving DecidableEq

/-- gui.py 545-560, `SparkTTS_GUI.play_audio`: plays the last generated
file when the stored path is truthy and exists on disk; otherwise warns
and disables the play button. -/
def play_audio (env : Env) (st : GuiState) : GuiState × PlayOutcome :=
  match st.last_generated_audio_path with
  | some p =>
    if !p.isEmpty && env.pathExists p then
      ({ st with
          player := ⟨some p, .playing⟩
          stop_button_enabled := true
          play_button_enabled := false }, .playing)
    else ({ st with play_button_enabled := false }, .noResult)
  | none => ({ st with play_button_enabled := false }, .noResult)

/-- gui.py 573-580, `_update_playback_status`: prefix plus the stored
file name, when one is set (Python truthiness). -/
def update_playback_status (st : GuiState) (statusPre : List Char) :
    List Char :=
  match st.last_generated_filename with
  | some f => if f.isEmpty then statusPre
      else statusPre ++ " (".data ++ f ++ ")".data
  | none => statusPre

/-- `"❌" in current_text`. -/
def hasErrMark (l : List Char) : Bool := l.contains '❌'

/-- `"✅" in current_text`. -/
def hasDoneMark (l : List Char) : Bool := l.contains '✅'

/-- `self.last_generated_filename is not None and os.path.exists(self.last_generated_audio_path)`
(the path is always set alongside the file name in the source, so the
`exists(None)` case is unreachable and modelled as `false`). -/
def playReady (env : Env) (st : GuiState) : Bool :=
  st.last_generated_filename.isSome &&
    (match st.last_generated_audio_path with
     | some p => env.pathExists p
     | none => false)

/-- gui.py 583-607, `SparkTTS_GUI.media_status_changed`. -/
def media_status_changed (env : Env) (st : GuiState) (status : MediaStatus) :
    GuiState :=
  if hasErrMark st.output_status_label then st   -- don't overwrite error
  else
    match status with
    | .loading =>
      { st with output_status_label := update_playback_status st "正在加载...".data }
    | .loaded =>
      if st.player.state = .stopped then
        { st with output_status_label := update_playback_status st "已加载".data }
      else st
    | .endOfMedia =>
      { st with
          output_status_label := update_playback_status st "✅ 播放完毕".data
          stop_button_enabled := false
          play_button_enabled := playReady env st }
    | .stalled =>
      { st with output_status_label := update_playback_status st "⚠️ 缓冲/中断".data }
    | .invalid =>
      { st with
          output_status_label := "❌ 无法播放此音频文件。".data
          last_generated_filename := none
          play_button_enabled := false
          stop_button_enabled := false }
    | _ => st

/-- gui.py 610-635, `SparkTTS_GUI.playback_state_changed`. -/
def playback_state_changed (env : Env) (st : GuiState)
    (state : PlaybackState) : GuiState :=
  let is_error := hasErrMark st.output_status_label
  let is_finished := hasDoneMark st.output_status_label
  match state with
  | .playing =>
    if !is_error then
      { st with
          output_status_label := update_playback_status st "▶️ 正在播放...".data
          stop_button_enabled := true
          play_button_enabled := false }
    else st
  | .paused =>
    if !is_error then
      { st with
          output_status_label := update_playback_status st "⏸️ 已暂停".data
          stop_button_enabled := true
          play_button_enabled := true }
    else st
  | .stopped =>
    let st1 :=
      if !is_finished && !is_error then
        { st with output_status_label := update_playback_status st "⏹️ 播放停止".data }
      else st
    { st1 with
        stop_button_enabled := false
        play_button_enabled := !is_error && playReady env st }

/-! ## Theorems about the controller -/

/-- An environment where every path exists. -/
def envAll : Env := ⟨fun _ => true, fun _ => true⟩

/-- An environment where no path exists. -/
def envNone : Env := ⟨fun _ => false, fun _ => false⟩

/-- The terminal outcome of the currently running job, as a function of
the inputs of its worker run that the environment determines. -/
def runningJobOutcome (st : GuiState) (c2 : Bool) (infer : InferOutcome)
    (fs : List (List Char)) (removeOk : Bool) : Option RunResult :=
  st.tts_thread.map fun w => TTSWorker_run w.cancelled c2 infer fs removeOk

/-- C1: while a job is running, a submission is rejected with Busy: the
controller state is unchanged (so nothing is queued and no new worker is
created), the caller is signalled, and the running job's terminal outcome
is unaffected.  This holds at the thread-start gate and for validated
clone and create submissions. -/
theorem C1_busy_rejection (st : GuiState) (w : Worker)
    (hw : st.tts_thread = some w) (hr : w.running = true) :
    (∀ args, start_tts_thread st args = (st, .busy))
    ∧ (∀ env rawT rawPT, clean_text (pyStrip rawT) ≠ [] →
        pyStrip st.prompt_audio_path_edit ≠ [] →
        env.pathExists (pyStrip st.prompt_audio_path_edit) = true →
        run_voice_clone env st rawT rawPT = (st, .submitted .busy))
    ∧ (∀ rawT g pl sl, pyStrip rawT ≠ [] → clean_text (pyStrip rawT) ≠ [] →
        run_voice_creation st rawT g pl sl = (st, .submitted .busy))
    ∧ (∀ args c2 infer fs rm,
        runningJobOutcome (start_tts_thread st args).1 c2 infer fs rm
          = runningJobOutcome st c2 infer fs rm) := by
  have hrun : threadRunning st = true := by simp [threadRunning, hw, hr]
  have hstart : ∀ args, start_tts_thread st args = (st, .busy) := by
    intro args
    simp [start_tts_thread, hrun]
  refine ⟨hstart, ?_, ?_, ?_⟩
  · intro env rawT rawPT h1 h2 h3
    simp [run_voice_clone, h1, h2, h3, hstart]
  · intro rawT g pl sl h1 h2
    simp [run_voice_creation, h1, h2, hstart]
  · intro args c2 infer fs rm
    rw [hstart args]

def someArgs : TTSArgs :=
  ⟨"你好".data, none, none, some .male, some 1.0, some 1.0⟩

def busyState : GuiState :=
  { initState with tts_thread := some ⟨someArgs, true, false⟩ }

/-- C1 witness: a concrete running state rejects a new start with Busy and
stays unchanged. -/
theorem C1_busy_rejection_witness :
    start_tts_thread busyState someArgs = (busyState, .busy) :=
  (C1_busy_rejection busyState ⟨someArgs, true, false⟩ rfl rfl).1 someArgs

/-- C3: each clone validation failure is signalled synchronously, the
worker slot is untouched, and an idle controller stays idle. -/
theorem C3_clone_validation (env : Env) (st : GuiState)
    (rawT rawPT : List Char) :
    (clean_text (pyStrip rawT) = [] →
        run_voice_clone env st rawT rawPT = (st, .emptyInput))
    ∧ (clean_text (pyStrip rawT) ≠ [] →
        pyStrip st.prompt_audio_path_edit = [] →
        run_voice_clone env st rawT rawPT = (st, .missingReference))
    ∧ (clean_text (pyStrip rawT) ≠ [] →
        pyStrip st.prompt_audio_path_edit ≠ [] →
        env.pathExists (pyStrip st.prompt_audio_path_edit) = false →
        run_voice_clone env st rawT rawPT
          = ({ st with prompt_audio_path_edit := [] }, .referenceNotFound))
    ∧ (clean_text (pyStrip rawT) = [] ∨ pyStrip st.prompt_audio_path_edit = []
        ∨ env.pathExists (pyStrip st.prompt_audio_path_edit) = false →
        (run_voice_clone env st rawT rawPT).1.tts_thread = st.tts_thread
        ∧ threadRunning (run_voice_clone env st rawT rawPT).1
            = threadRunning st) := by
  refine ⟨?_, ?_, ?_, ?_⟩
  · intro h1
    simp [run_voice_clone, h1]
  · intro h1 h2
    simp [run_voice_clone, h1, h2]
  · intro h1 h2 h3
    simp [run_voice_clone, h1, h2, h3]
  · intro hor
    by_cases h1 : clean_text (pyStrip rawT) = []
    · simp [run_voice_clone, h1]
    · by_cases h2 : pyStrip st.prompt_audio_path_edit = []
      · simp [run_voice_clone, h1, h2]
      · have h3 : env.pathExists (pyStrip st.prompt_audio_path_edit) = false := by
          rcases hor with h | h | h
          · exact absurd h h1
          · exact absurd h h2
          · exact h
        simp [run_voice_clone, h1, h2, h3, threadRunning]

def stMissingRef : GuiState :=
  { initState with prompt_audio_path_edit := "missing.wav".data }

/-- C3 witness: a clone submission whose reference path does not exist is
rejected with ReferenceNotFound and no worker appears. -/
theorem C3_clone_validation_witness :
    run_voice_clone envNone stMissingRef "hi".data []
      = ({ stMissingRef with prompt_audio_path_edit := [] },
          .referenceNotFound) :=
  (C3_clone_validation envNone stMissingRef "hi".data []).2.2.1
    (by decide) (by decide) rfl

/-- C4: on a terminal failure/cancellation only the pending file-name
reference is cleared; the last-result path and the player are untouched,
and `play_audio` still starts playback of the retained earlier artifact
when it exists on disk. -/
theorem C4_error_preserves_last_result (env : Env) (st : GuiState)
    (msg : List Char) :
    (on_tts_error env st msg).last_generated_audio_path
        = st.last_generated_audio_path
    ∧ (on_tts_error env st msg).last_generated_filename = none
    ∧ (on_tts_error env st msg).player = st.player
    ∧ (∀ p, st.last_generated_audio_path = some p → p ≠ [] →
        env.pathExists p = true →
        (play_audio env (on_tts_error env st msg)).2 = .playing
        ∧ (play_audio env (on_tts_error env st msg)).1.player
            = ⟨some p, .playing⟩) := by
  refine ⟨rfl, rfl, rfl, ?_⟩
  intro p hp hne hex
  have hisE : p.isEmpty = false := by
    cases p with
    | nil => exact absurd rfl hne
    | cons c r => rfl
  constructor <;> simp [play_audio, on_tts_error, hp, hisE, hex]

def stWithResult : GuiState :=
  { initState with
      last_generated_audio_path := some "r.wav".data
      last_generated_filename := some "r.wav".data
      play_button_enabled := true }

/-- C4 witness: after an error, the previously generated artifact still
plays. -/
theorem C4_error_preserves_last_result_witness :
    (play_audio envAll (on_tts_error envAll stWithResult "boom".data)).2
      = .playing :=
  ((C4_error_preserves_last_result envAll stWithResult "boom".data).2.2.2
    "r.wav".data rfl (by decide) rfl).1

/-- C5: the create workflow resolves pitch and speed through the fixed
level-to-factor table (1→0.8, 2→0.9, 3→1.0, 4→1.1, 5→1.2), any level
outside {1..5} resolves to the neutral factor 1.0, and in particular
`pitchLevel = 5, speedLevel = 1` reach the gateway as
`pitch = 1.2, speed = 0.8`. -/
theorem C5_level_factor_resolution :
    (∀ l : Int, l ∉ ([1, 2, 3, 4, 5] : List Int) → levelFactor l = 1.0)
    ∧ levelFactor 1 = 0.8 ∧ levelFactor 2 = 0.9 ∧ levelFactor 3 = 1.0
    ∧ levelFactor 4 = 1.1 ∧ levelFactor 5 = 1.2
    ∧ (∀ st rawT g pl sl w,
        (run_voice_creation st rawT g pl sl).1.tts_thread = some w →
        (run_voice_creation st rawT g pl sl).2 = .submitted .started →
        w.args.pitch = some (levelFactor pl)
          ∧ w.args.speed = some (levelFactor sl))
    ∧ (run_voice_creation initState "你好".data .male 5 1).1.tts_thread.map
          (fun w => (w.args.pitch, w.args.speed))
        = some (some 1.2, some 0.8) := by
  refine ⟨?_, by norm_num [levelFactor, UI_LEVELS_MAP],
    by norm_num [levelFactor, UI_LEVELS_MAP],
    by norm_num [levelFactor, UI_LEVELS_MAP],
    by norm_num [levelFactor, UI_LEVELS_MAP],
    by norm_num [levelFactor, UI_LEVELS_MAP], ?_, ?_⟩
  · intro l hl
    simp only [List.mem_cons, List.not_mem_nil, or_false, not_or] at hl
    obtain ⟨h1, h2, h3, h4, h5⟩ := hl
    simp [levelFactor, UI_LEVELS_MAP, h1, h2, h3, h4, h5]
  · intro st rawT g pl sl w hthread houtcome
    unfold run_voice_creation at hthread houtcome
    by_cases h1 : pyStrip rawT = []
    · simp [h1] at houtcome
    · simp only [h1, Bool.false_eq_true, ite_false] at hthread houtcome
      by_cases h2 : clean_text (pyStrip rawT) = []
      · simp [h2] at houtcome
      · simp only [h2, Bool.false_eq_true, ite_false] at hthread houtcome
        unfold start_tts_thread at hthread houtcome
        by_cases h3 : threadRunning st = true
        · simp [h3] at houtcome
        · simp only [h3, Bool.false_eq_true, ite_false] at hthread
          simp only [Option.some.injEq] at hthread
          subst hthread
          exact ⟨rfl, rfl⟩
  · have hred : (run_voice_creation initState "你好".data .male 5 1).1.tts_thread.map
        (fun w => (w.args.pitch, w.args.speed))
        = some (some (levelFactor 5), some (levelFactor 1)) := rfl
    rw [hred]
    norm_num [levelFactor, UI_LEVELS_MAP]

/-- C5 witness: level 0 lies outside the table and resolves to 1.0. -/
theorem C5_level_factor_resolution_witness : levelFactor 0 = 1.0 :=
  C5_level_factor_resolution.1 0 (by decide)

/-- C9 counterexample state: the display shows a playback error while a
valid last result is retained. -/
def stErrDisplay : GuiState :=
  { initState with
      output_status_label := "❌ 播放失败".data
      last_generated_audio_path := some "r.wav".data
      last_generated_filename := some "r.wav".data }

/-- C9 counterexample: a successful `play()` call (followed by its
Playing-state callback) does **not** end the error display — the label
still carries the error mark afterwards, so the error state does not
persist merely "until the next successful play() call"; it outlives it. -/
theorem C9_sticky_error_counterexample :
    (play_audio envAll stErrDisplay).2 = .playing
    ∧ (playback_state_changed envAll (play_audio envAll stErrDisplay).1
        .playing).output_status_label = "❌ 播放失败".data
    ∧ hasErrMark ((playback_state_changed envAll
        (play_audio envAll stErrDisplay).1 .playing).output_status_label)
        = true := by
  refine ⟨by decide, by decide, by decide⟩

/-- C9 amended: once the playback display shows an error, no status or
playback-state callback overwrites it, and a successful `play()` call does
not clear it either; the error display persists until the next successful
synthesis job rewrites the label. -/
theorem C9_sticky_error_amended (env : Env) (st : GuiState)
    (h : hasErrMark st.output_status_label = true) :
    (∀ status, (media_status_changed env st status).output_status_label
        = st.output_status_label)
    ∧ (∀ state, (playback_state_changed env st state).output_status_label
        = st.output_status_label)
    ∧ (play_audio env st).1.output_status_label = st.output_status_label
    ∧ (∀ p, (on_tts_finished st p).output_status_label
        = "✅ 生成成功: ".data ++ basename p) := by
  refine ⟨?_, ?_, ?_, fun p => rfl⟩
  · intro status
    simp [media_status_changed, h]
  · intro state
    cases state <;> simp [playback_state_changed, h]
  · rcases hp : st.last_generated_audio_path with _ | p <;>
      simp only [play_audio, hp]
    split <;> rfl

/-- C9 amended witness: with the error display shown, an end-of-media
status callback leaves the label untouched. -/
theorem C9_sticky_error_amended_witness :
    (media_status_changed envAll stErrDisplay .endOfMedia).output_status_label
      = stErrDisplay.output_status_label :=
  (C9_sticky_error_amended envAll stErrDisplay (by decide)).1 .endOfMedia

end SparkTTS
